import Mathlib

/-!
# Verification of the order/item reconciliation pipeline (M01_combine_sql.py)

A shallow embedding of the core pipeline of `src/main/M01_combine_sql.py`:
VAT-band canonicalization and pivot (`transform_item_data`), the left
merge of pivoted item aggregates onto order rows with per-transaction-index
duplicate suppression, the key-staging batch loop of
`run_item_level_query`, the provider partition predicates of `main`, and
the connection lifecycle of `main`.

Tables are lists of rows; a pandas missing value (NaN) on a string or
numeric column is `Option.none`; numeric item metrics are modelled as
integers (the claims under study do not concern floating-point rounding).
-/

namespace CombineSql

/-- One row of the item-level table returned by `S02_item_level.sql`
(columns used by `transform_item_data`). `gp_order_id` values returned by
the item query are keyed to staged order ids and modelled as non-null. -/
structure ItemRow where
  gp_order_id : String
  vat_band : String
  item_quantity_count : Int
  total_price_inc_vat : Int
  total_price_exc_vat : Int
deriving DecidableEq, Repr

/-- One row of the order-level table (the columns that
`transform_item_data` and the provider partitioning of `main` read).
Every field may be missing (NaN) in the source data. -/
structure OrderRow where
  gp_order_id : Option String
  braintree_tx_index : Option Int
  vendor_group : Option String
  payment_system : Option String
  order_vendor : Option String
deriving DecidableEq, Repr

/-- The `df_items["vat_band"].replace({...})` mapping of
`transform_item_data` (M01_combine_sql.py lines 150-155): the four keys of
the dict literal map to short codes, any other label is left unchanged. -/
def canonicalizeBand (s : String) : String :=
  if s = "0% VAT Band" then "0"
  else if s = "5% VAT Band" then "5"
  else if s = "20% VAT Band" then "20"
  else if s = "Other / Unknown VAT Band" then "other"
  else s

/-- Effect of the in-place column assignment
`df_items["vat_band"] = df_items["vat_band"].replace({...})`:
every row of the items table has its `vat_band` rewritten. -/
def canonicalizeItems (items : List ItemRow) : List ItemRow :=
  items.map fun r => { r with vat_band := canonicalizeBand r.vat_band }

/-- The three `values` columns of the `pivot_table` call. -/
inductive Metric where
  | item_quantity_count
  | total_price_inc_vat
  | total_price_exc_vat
deriving DecidableEq, Repr

/-- Reading a metric off an item row. -/
def Metric.get : Metric → ItemRow → Int
  | .item_quantity_count, r => r.item_quantity_count
  | .total_price_inc_vat, r => r.total_price_inc_vat
  | .total_price_exc_vat, r => r.total_price_exc_vat

/-- The pandas column name of a metric. -/
def Metric.colString : Metric → String
  | .item_quantity_count => "item_quantity_count"
  | .total_price_inc_vat => "total_price_inc_vat"
  | .total_price_exc_vat => "total_price_exc_vat"

/-- The `values=[...]` list of the `pivot_table` call, in order. -/
def metrics : List Metric :=
  [.item_quantity_count, .total_price_inc_vat, .total_price_exc_vat]

/-- The index of `df_pivot`: the distinct `gp_order_id` values appearing
in the items table (`pivot_table(index="gp_order_id", ...)`). -/
def pivotIndex (items : List ItemRow) : List String :=
  (items.map (·.gp_order_id)).dedup

/-- The bands appearing as pivot columns: the distinct `vat_band` values
present in the items table (`pivot_table(columns="vat_band", ...)`).
pandas creates a column only for a band that occurs in at least one row. -/
def pivotBands (items : List ItemRow) : List String :=
  (items.map (·.vat_band)).dedup

/-- One aggregated cell of `df_pivot`: the sum of the metric over the item
rows of the given order and band (`aggfunc="sum"`); an empty group is the
`fill_value=0` case, which coincides with the empty sum. -/
def pivotCell (items : List ItemRow) (oid : String) (m : Metric) (b : String) : Int :=
  ((items.filter fun r => r.gp_order_id == oid && r.vat_band == b).map m.get).sum

/-- The flattened column name `f"{metric}_{band}"` (line 169). -/
def colName (m : Metric) (b : String) : String :=
  m.colString ++ "_" ++ b

/-- The flattened column set of `df_pivot`: one `(metric, band)` pair per
metric in `values` and band present in the input. -/
def pivotColumns (items : List ItemRow) : List (Metric × String) :=
  metrics.flatMap fun m => (pivotBands items).map fun b => (m, b)

/-- Substring containment (`pat in s`), used to model `df.filter(like=pat)`
and the `any(x in c for x in [...])` membership tests on column names. -/
def containsSub (s pat : String) : Bool :=
  go s.data
where
  /-- Scans every suffix of `s` for `pat` as a prefix. -/
  go : List Char → Bool
    | [] => pat.data.isPrefixOf []
    | c :: cs => pat.data.isPrefixOf (c :: cs) || go cs

/-- The derived `total_products` cell for one order:
`df_pivot.filter(like="item_quantity_count_").sum(axis=1)` sums, over the
pivot columns whose flattened name contains `"item_quantity_count_"`, the
aggregated cell of that order (line 172). -/
def totalProducts (items : List ItemRow) (oid : String) : Int :=
  (((pivotColumns items).filter fun mb =>
      containsSub (colName mb.1 mb.2) "item_quantity_count_").map fun mb =>
    pivotCell items oid mb.1 mb.2).sum

/-- The four display labels recognized by the `replace` dict literal. -/
def recognizedLabels : List String :=
  ["0% VAT Band", "5% VAT Band", "20% VAT Band", "Other / Unknown VAT Band"]

/-- The mask of line 182:
`(df_final["braintree_tx_index"].notna()) & (df_final["braintree_tx_index"] >= 2)`.
A missing index compares as False. -/
def dedupMask (row : OrderRow) : Bool :=
  match row.braintree_tx_index with
  | some k => 2 ≤ k
  | none => false

/-- The value of an item-derived pivot column on a merged row before
duplicate suppression: the left merge
`df_orders.merge(df_pivot, how="left", left_on="gp_order_id", right_index=True)`
matches an order row to the pivot row of its `gp_order_id`; an unmatched
row (missing key, or key absent from the pivot index) gets NaN. -/
def mergeItemCell (items : List ItemRow) (oid : Option String) (m : Metric) (b : String) :
    Option Int :=
  match oid with
  | none => none
  | some o => if o ∈ pivotIndex items then some (pivotCell items o m b) else none

/-- The merged `total_products` column, likewise NaN on unmatched rows. -/
def mergeTotalProducts (items : List ItemRow) (oid : Option String) : Option Int :=
  match oid with
  | none => none
  | some o => if o ∈ pivotIndex items then some (totalProducts items o) else none

/-- One row of `df_final` after the merge and the duplicate-suppression
assignment `df_final.loc[mask, item_cols] = np.nan`. `itemCell` gives the
value of the flattened pivot column `(metric, band)`; only pairs in
`pivotColumns` of the (canonicalized) items table exist as columns. -/
structure FinalRow where
  order : OrderRow
  itemCell : Metric → String → Option Int
  total_products : Option Int

/-- Builds the final row of one order row: on masked rows (transaction
index present and ≥ 2) every item-derived column is overwritten with NaN;
other rows keep their merged values. -/
def buildFinalRow (items : List ItemRow) (row : OrderRow) : FinalRow :=
  { order := row
  , itemCell := fun m b =>
      if dedupMask row then none else mergeItemCell items row.gp_order_id m b
  , total_products :=
      if dedupMask row then none else mergeTotalProducts items row.gp_order_id }

/-- `transform_item_data(df_orders, df_items)` (lines 143-190): rewrites
`df_items["vat_band"]` in place, pivots, merges and suppresses duplicated
item metrics. Returns the final merged table together with the
post-mutation state of the caller's `df_items` (the function mutates its
argument). The trailing `sort_values` and the `FINAL_DF_ORDER` column
restriction only reorder the result and are not modelled. -/
def transform_item_data (df_orders : List OrderRow) (df_items : List ItemRow) :
    List FinalRow × List ItemRow :=
  let items := canonicalizeItems df_items
  (df_orders.map (buildFinalRow items), items)

/-! ## Provider partition predicates (main, lines 225-230)

pandas semantics on missing values: `.str.lower()` keeps NaN; an `==`
comparison of NaN with a string is False, `!=` is True, and `isin` is
False. -/

/-- Lower-casing of a string, character-wise (the vendor labels compared
against are ASCII, where Python's `str.lower()` agrees with this). -/
def strLower (v : String) : String :=
  ⟨v.data.map Char.toLower⟩

/-- `series.str.lower()` element semantics. -/
def lowerOpt (s : Option String) : Option String :=
  s.map strLower

/-- `series == t` element semantics (NaN compares False). -/
def seriesEq (s : Option String) (t : String) : Bool :=
  match s with
  | some v => v == t
  | none => false

/-- `series != t` element semantics (NaN compares True). -/
def seriesNe (s : Option String) (t : String) : Bool :=
  match s with
  | some v => v != t
  | none => true

/-- `series.isin(ts)` element semantics (NaN gives False). -/
def seriesIsin (s : Option String) (ts : List String) : Bool :=
  match s with
  | some v => ts.contains v
  | none => false

/-- Row predicate of `df_braintree` (line 225). -/
def isBraintree (r : OrderRow) : Bool :=
  seriesEq (lowerOpt r.vendor_group) "dtc" && seriesNe (lowerOpt r.payment_system) "paypal"

/-- Row predicate of `df_paypal` (line 226). -/
def isPaypal (r : OrderRow) : Bool :=
  seriesEq (lowerOpt r.vendor_group) "dtc" && seriesEq (lowerOpt r.payment_system) "paypal"

/-- Row predicate of `df_uber` (line 227). -/
def isUber (r : OrderRow) : Bool :=
  seriesEq (lowerOpt r.order_vendor) "uber"

/-- Row predicate of `df_deliveroo` (line 228). -/
def isDeliveroo (r : OrderRow) : Bool :=
  seriesEq (lowerOpt r.order_vendor) "deliveroo"

/-- Row predicate of `df_justeat` (line 229). -/
def isJustEat (r : OrderRow) : Bool :=
  seriesIsin (lowerOpt r.order_vendor) ["just eat", "justeat"]

/-- Row predicate of `df_amazon` (line 230). -/
def isAmazon (r : OrderRow) : Bool :=
  seriesEq (lowerOpt r.order_vendor) "amazon uk"

/-- The `provider_map` of line 233, restricted to the classification
predicates (the output paths are external collaborators). -/
def providerPredicates : List (String × (OrderRow → Bool)) :=
  [("Braintree", isBraintree), ("PayPal", isPaypal), ("Uber", isUber),
   ("Deliveroo", isDeliveroo), ("Just Eat", isJustEat), ("Amazon", isAmazon)]

/-- How many of the six provider subsets a row lands in. -/
def matchCount (r : OrderRow) : Nat :=
  (providerPredicates.filter fun p => p.2 r).length

/-- The combination of field values under which the Braintree (or PayPal)
predicate and one of the marketplace predicates hold simultaneously. -/
def dtcMarketplaceClash (r : OrderRow) : Bool :=
  seriesEq (lowerOpt r.vendor_group) "dtc" &&
    seriesIsin (lowerOpt r.order_vendor)
      ["uber", "deliveroo", "just eat", "justeat", "amazon uk"]

/-! ## Key staging (run_item_level_query, lines 102-123) -/

/-- Error taxonomy of the pipeline. `EmptyKeySetError` is the
`ValueError("❌ No valid gp_order_id values found ...")` raised at line
105; `QueryExecutionError` stands for any engine-level failure;
`QuerySourceMissingError` is the `FileNotFoundError` of `get_sql_path`. -/
inductive PipelineError where
  | EmptyKeySetError
  | QuerySourceMissingError
  | QueryExecutionError
  | SchemaMismatchError
deriving DecidableEq, Repr

instance {ε α : Type} [DecidableEq ε] [DecidableEq α] : DecidableEq (Except ε α) := fun x y =>
  match x, y with
  | .ok a, .ok b =>
    if h : a = b then .isTrue (by rw [h]) else .isFalse (by simp [h])
  | .error e, .error f =>
    if h : e = f then .isTrue (by rw [h]) else .isFalse (by simp [h])
  | .ok _, .error _ => .isFalse (by simp)
  | .error _, .ok _ => .isFalse (by simp)

/-- `df_orders["gp_order_id"].dropna().unique().tolist()` (line 103):
drop missing keys, keep the first occurrence of each distinct value. -/
def extractOrderIds (df_orders : List OrderRow) : List String :=
  go (df_orders.filterMap (·.gp_order_id)) []
where
  /-- `unique()` keeps first occurrences in order. -/
  go : List String → List String → List String
    | [], _ => []
    | x :: xs, seen => if x ∈ seen then go xs seen else x :: go xs (x :: seen)

/-- `chunk_size = 25000` (line 112). -/
def chunk_size : Nat := 25000

/-- The insert loop `for i in range(0, len(gp_order_ids), chunk_size)`
(lines 115-120), starting at offset `i`: each iteration executes one
`executemany` with the slice `gp_order_ids[i:i+chunk_size]` and reports
the cumulative count `done = min(i + chunk_size, len(gp_order_ids))`.
The extra `fuel` argument only makes the recursion structural; since the
offset advances by `chunk_size ≥ 1` per iteration, `ids.length` units of
fuel always cover the whole loop. -/
def insertStepsAux (ids : List String) : Nat → Nat → List (List String × Nat)
  | 0, _ => []
  | fuel + 1, i =>
    if i < ids.length then
      ((ids.drop i).take chunk_size, min (i + chunk_size) ids.length) ::
        insertStepsAux ids fuel (i + chunk_size)
    else []

/-- The whole insert loop over a staged id list. -/
def insertSteps (ids : List String) : List (List String × Nat) :=
  insertStepsAux ids ids.length 0

/-- The fallible key-staging prefix of `run_item_level_query` (lines
102-123): extract the non-null unique order ids, fail when there are none
(`if not gp_order_ids: raise ValueError(...)`), otherwise perform the
chunked insert loop. -/
def stageOrderIds (df_orders : List OrderRow) :
    Except PipelineError (List (List String × Nat)) :=
  let gp_order_ids := extractOrderIds df_orders
  if gp_order_ids.isEmpty then .error .EmptyKeySetError
  else .ok (insertSteps gp_order_ids)

/-! ## Connection lifecycle of main (lines 196-218) -/

/-- The opaque query engine behind the Snowflake connection: the outcome
of the order-level query and, given the staged batches, of the item-level
query. -/
structure Engine where
  runOrderQuery : Except PipelineError (List OrderRow)
  runItemQuery : List (List String × Nat) → Except PipelineError (List ItemRow)

/-- `run_item_level_query(conn, df_orders)`: stage the keys (which may
fail with `EmptyKeySetError`), then run the item query. -/
def run_item_level_query (eng : Engine) (df_orders : List OrderRow) :
    Except PipelineError (List ItemRow) :=
  match stageOrderIds df_orders with
  | .error e => .error e
  | .ok batches => eng.runItemQuery batches

/-- Outcome of one `main()` run: the result and whether `conn.close()`
(line 217) was reached. -/
structure RunOutcome where
  result : Except PipelineError (List FinalRow)
  connClosed : Bool

/-- The control flow of `main()` around the connection (lines 196-218):
the queries and the transform run in sequence with no `try`/`finally` or
context manager; `conn.close()` is the statement after the transform, so
it executes only when every prior stage returned normally. An exception
in any stage propagates out of `main` with the connection still open. -/
def mainRun (eng : Engine) : RunOutcome :=
  match eng.runOrderQuery with
  | .error e => { result := .error e, connClosed := false }
  | .ok df_orders =>
    match run_item_level_query eng df_orders with
    | .error e => { result := .error e, connClosed := false }
    | .ok df_items =>
      { result := .ok (transform_item_data df_orders df_items).1, connClosed := true }

/-- Whether an `Except` result is a normal return. -/
def exceptIsOk : Except PipelineError (List FinalRow) → Bool
  | .ok _ => true
  | .error _ => false

/-! ## Concrete instances used to settle the claims -/

/-- First payment transaction of order `A`. -/
def cexOrderA1 : OrderRow := ⟨some "A", some 1, some "dtc", some "card", some "web"⟩

/-- Second payment transaction of order `A`. -/
def cexOrderA2 : OrderRow := ⟨some "A", some 2, some "dtc", some "card", some "web"⟩

/-- Single transaction of order `B`. -/
def cexOrderB1 : OrderRow := ⟨some "B", some 1, some "dtc", some "card", some "web"⟩

/-- An order table where order `A` spans transaction indices 1..2. -/
def cexOrders : List OrderRow := [cexOrderA1, cexOrderA2, cexOrderB1]

/-- An item table containing rows only for order `B`: order `A` has no
item rows. -/
def cexItemsB : List ItemRow := [⟨"B", "5% VAT Band", 3, 12, 11⟩]

/-- The final row of order `A`, transaction index 1, for `cexOrders` and
`cexItemsB`. -/
def cexFinalRowA1 : FinalRow := buildFinalRow (canonicalizeItems cexItemsB) cexOrderA1

/-- Order table of the end-to-end scenario: order `A` with transaction
indices 1 and 2. -/
def exOrders : List OrderRow :=
  [⟨some "A", some 1, some "dtc", some "braintree", some "web"⟩,
   ⟨some "A", some 2, some "dtc", some "braintree", some "web"⟩]

/-- Item table of the end-to-end scenario: one 5%-band item row of
order `A`. -/
def exItems : List ItemRow := [⟨"A", "5% VAT Band", 3, 12, 11⟩]

/-- An item table whose only band is the 0% band. -/
def cexPivotItems : List ItemRow := [⟨"A", "0% VAT Band", 1, 10, 8⟩]

/-- An item table with a band label outside the recognized set. -/
def cexStrangeItems : List ItemRow := [⟨"A", "Strange Band", 3, 12, 11⟩]

/-- A row with `vendor_group = "dtc"`, a non-PayPal payment system and
`order_vendor = "uber"`. -/
def cexClashRow : OrderRow := ⟨some "X", some 1, some "dtc", some "card", some "uber"⟩

/-- A row with missing `payment_system` and `order_vendor`. -/
def cexMissingRow : OrderRow := ⟨some "X", some 1, some "DTC", none, none⟩

/-- An engine whose order query succeeds but returns only a null
`gp_order_id`, so that key staging raises `EmptyKeySetError`. -/
def cexEngine : Engine :=
  { runOrderQuery := .ok [⟨none, some 1, some "dtc", some "card", some "web"⟩]
  , runItemQuery := fun _ => .ok [] }

/-! ## Helper lemmas -/

/-- Canonicalization never outputs a display label: the four recognized
labels map to short codes, and a pass-through value was outside the label
set to begin with. -/
theorem canonicalizeBand_not_label (s : String) :
    canonicalizeBand s ∉ recognizedLabels := by
  unfold canonicalizeBand
  split_ifs with h1 h2 h3 h4
  · decide
  · decide
  · decide
  · decide
  · simp [recognizedLabels, h1, h2, h3, h4]

/-! ## C6 — VAT-band label canonicalization -/

/-- C6 counterexample: the code's `replace` dict keys the other-band label
as `"Other / Unknown VAT Band"` (with spaces around the slash), so the
claimed label `"Other/Unknown VAT Band"` is not mapped to `"other"` but
passes through unchanged, while the spaced label is the one mapped. -/
theorem canonicalizeBand_slash_label_cex :
    canonicalizeBand "Other/Unknown VAT Band" ≠ "other" ∧
    canonicalizeBand "Other/Unknown VAT Band" = "Other/Unknown VAT Band" ∧
    canonicalizeBand "Other / Unknown VAT Band" = "other" := by
  decide

/-- C6 (amended): the transform maps `"0% VAT Band"` to `"0"`,
`"5% VAT Band"` to `"5"`, `"20% VAT Band"` to `"20"` and
`"Other / Unknown VAT Band"` to `"other"`; every label outside this
four-element set passes through unchanged. -/
theorem canonicalizeBand_spec :
    canonicalizeBand "0% VAT Band" = "0" ∧
    canonicalizeBand "5% VAT Band" = "5" ∧
    canonicalizeBand "20% VAT Band" = "20" ∧
    canonicalizeBand "Other / Unknown VAT Band" = "other" ∧
    ∀ s : String, s ∉ recognizedLabels → canonicalizeBand s = s := by
  refine ⟨by decide, by decide, by decide, by decide, fun s hs => ?_⟩
  simp [recognizedLabels] at hs
  simp [canonicalizeBand, hs.1, hs.2.1, hs.2.2.1, hs.2.2.2]

/-- C6 witness: an unrecognized label passes through unchanged. -/
theorem canonicalizeBand_spec_witness :
    canonicalizeBand "12.5% VAT Band" = "12.5% VAT Band" :=
  canonicalizeBand_spec.2.2.2.2 "12.5% VAT Band" (by decide)

/-! ## C4 — empty key set fails staging -/

/-- C4: when the order table holds no non-null `gp_order_id`, the
key-staging prefix of `run_item_level_query` fails with the empty-key-set
error (the `ValueError` of line 105) instead of proceeding. -/
theorem stage_empty_key_set (df_orders : List OrderRow)
    (h : ∀ r ∈ df_orders, r.gp_order_id = none) :
    stageOrderIds df_orders = .error .EmptyKeySetError := by
  have hnil : df_orders.filterMap (·.gp_order_id) = [] :=
    List.filterMap_eq_nil_iff.mpr h
  simp [stageOrderIds, extractOrderIds, hnil, extractOrderIds.go]

/-- C4 witness: a one-row order table with a null key fails staging. -/
theorem stage_empty_key_set_witness :
    stageOrderIds [⟨none, some 1, none, none, none⟩] = .error .EmptyKeySetError :=
  stage_empty_key_set [⟨none, some 1, none, none, none⟩] (by decide)

/-! ## C9 — the transform mutates the items table in place -/

/-- C9: `transform_item_data` rewrites the `vat_band` column of the
caller's `df_items` in place; afterwards the items table carries the
canonical short codes and no display label survives in it. -/
theorem transform_mutates_items (df_orders : List OrderRow) (df_items : List ItemRow) :
    (transform_item_data df_orders df_items).2 =
      df_items.map (fun r => { r with vat_band := canonicalizeBand r.vat_band }) ∧
    ∀ r ∈ (transform_item_data df_orders df_items).2, r.vat_band ∉ recognizedLabels := by
  refine ⟨rfl, fun r hr => ?_⟩
  simp only [transform_item_data, canonicalizeItems, List.mem_map] at hr
  obtain ⟨x, _, rfl⟩ := hr
  exact canonicalizeBand_not_label x.vat_band

/-- C9 witness: after the transform, the 5%-band display label of the
scenario's item row has been replaced by the code `"5"` in the input
object. -/
theorem transform_mutates_items_witness :
    (transform_item_data exOrders exItems).2 = [⟨"A", "5", 3, 12, 11⟩] ∧
    (⟨"A", "5", 3, 12, 11⟩ : ItemRow).vat_band ∉ recognizedLabels :=
  ⟨(transform_mutates_items exOrders exItems).1,
   (transform_mutates_items exOrders exItems).2 ⟨"A", "5", 3, 12, 11⟩ (by decide)⟩

/-! ## C3 — pivot output schema -/

/-- C3 counterexample: with an input whose only band is the 0% band, the
pivot has no `item_quantity_count_5` column at all, while a run whose
input has a 5%-band row does; the column set is not fixed across runs. -/
theorem pivot_schema_run_dependent_cex :
    pivotBands (canonicalizeItems cexPivotItems) = ["0"] ∧
    (Metric.item_quantity_count, "5") ∉ pivotColumns (canonicalizeItems cexPivotItems) ∧
    (Metric.item_quantity_count, "5") ∈ pivotColumns (canonicalizeItems exItems) := by
  decide

/-- C3 (amended): the pivot has one row per `order_id`; for every band
that appears in at least one input row, all three metric columns exist,
and an (order, band) combination with no input rows holds the value `0`
(not a missing value). Bands absent from the entire input produce no
column, so the schema depends on the bands of the run. -/
theorem pivot_zero_fill (items : List ItemRow) (o b : String) (m : Metric)
    (hb : b ∈ pivotBands (canonicalizeItems items))
    (habsent : (canonicalizeItems items).filter
      (fun r => r.gp_order_id == o && r.vat_band == b) = []) :
    (pivotIndex (canonicalizeItems items)).Nodup ∧
    (m, b) ∈ pivotColumns (canonicalizeItems items) ∧
    pivotCell (canonicalizeItems items) o m b = 0 := by
  refine ⟨List.nodup_dedup _, ?_, ?_⟩
  · simp only [pivotColumns, List.mem_flatMap, List.mem_map]
    exact ⟨m, by cases m <;> simp [metrics], b, hb, rfl⟩
  · simp [pivotCell, habsent]

/-- C3 witness: order `A` has no 5%-band rows, yet the 5%-band quantity
column exists (order `B` has one) and holds `0` for `A`. -/
theorem pivot_zero_fill_witness :
    (pivotIndex (canonicalizeItems (cexPivotItems ++ [⟨"B", "5% VAT Band", 2, 20, 16⟩]))).Nodup ∧
    (Metric.item_quantity_count, "5") ∈
      pivotColumns (canonicalizeItems (cexPivotItems ++ [⟨"B", "5% VAT Band", 2, 20, 16⟩])) ∧
    pivotCell (canonicalizeItems (cexPivotItems ++ [⟨"B", "5% VAT Band", 2, 20, 16⟩])) "A"
      Metric.item_quantity_count "5" = 0 :=
  pivot_zero_fill (cexPivotItems ++ [⟨"B", "5% VAT Band", 2, 20, 16⟩]) "A" "5"
    Metric.item_quantity_count (by decide) (by decide)

/-! ## C5 — key staging batching -/

/-- The insert loop emits nothing once the offset has passed the end of
the id list. -/
theorem insertStepsAux_past_end (ids : List String) (fuel i : Nat)
    (h : ¬ i < ids.length) : insertStepsAux ids fuel i = [] := by
  cases fuel <;> simp [insertStepsAux, h]

/-- Fact sheet of the insert loop from offset `i`, by induction on the
fuel: with enough fuel, the emitted chunks concatenate to `ids.drop i`,
there are `⌈(|ids| - i) / chunk_size⌉` of them, each holds at most
`chunk_size` identifiers, and — when at least one iteration runs — the
cumulative count reported by the last iteration is `|ids|`. -/
theorem insertStepsAux_spec (ids : List String) :
    ∀ fuel i, ids.length ≤ i + fuel →
      ((insertStepsAux ids fuel i).map Prod.fst).flatten = ids.drop i ∧
      (insertStepsAux ids fuel i).length =
        (ids.length - i + chunk_size - 1) / chunk_size ∧
      (∀ st ∈ insertStepsAux ids fuel i, st.1.length ≤ chunk_size) ∧
      (i < ids.length →
        (insertStepsAux ids fuel i).getLast?.map Prod.snd = some ids.length) := by
  intro fuel
  induction fuel with
  | zero =>
    intro i hle
    simp only [insertStepsAux]
    refine ⟨?_, ?_, by simp, ?_⟩
    · simp [List.drop_eq_nil_of_le (by omega : ids.length ≤ i)]
    · have : ids.length - i = 0 := by omega
      rw [this]
      simp [chunk_size]
    · intro hi
      omega
  | succ fuel ih =>
    intro i hle
    by_cases hi : i < ids.length
    · have hle' : ids.length ≤ (i + chunk_size) + fuel := by
        have : (1 : Nat) ≤ chunk_size := by simp [chunk_size]
        omega
      obtain ⟨ihj, ihl, ihb, ihlast⟩ := ih (i + chunk_size) hle'
      simp only [insertStepsAux, if_pos hi]
      refine ⟨?_, ?_, ?_, ?_⟩
      · simp only [List.map_cons, List.flatten_cons, ihj]
        rw [← List.drop_drop]
        exact List.take_append_drop chunk_size (ids.drop i)
      · simp only [List.length_cons, ihl]
        simp only [chunk_size] at *
        omega
      · intro st hst
        rcases List.mem_cons.mp hst with rfl | hst
        · simp [List.length_take]
        · exact ihb st hst
      · intro _
        by_cases hiB : i + chunk_size < ids.length
        · have hlast := ihlast hiB
          rcases hrest : insertStepsAux ids fuel (i + chunk_size) with _ | ⟨y, t⟩
          · rw [hrest] at hlast
            simp at hlast
          · rw [hrest] at hlast
            rw [List.getLast?_cons_cons]
            exact hlast
        · have hrest : insertStepsAux ids fuel (i + chunk_size) = [] :=
            insertStepsAux_past_end ids fuel (i + chunk_size) hiB
          simp [hrest, min_eq_right (le_of_not_lt hiB)]
    · rw [insertStepsAux_past_end ids (fuel + 1) i hi]
      refine ⟨?_, ?_, by simp, ?_⟩
      · simp [List.drop_eq_nil_of_le (le_of_not_lt hi)]
      · have : ids.length - i = 0 := by omega
        rw [this]
        simp [chunk_size]
      · intro hlt
        exact absurd hlt hi

/-- C5: staging a non-empty identifier list `S` with batch size
`chunk_size = 25000` inserts exactly the identifiers of `S` (the inserted
chunks concatenate to `S`), in `⌈|S| / chunk_size⌉` insert calls of at
most `chunk_size` identifiers each, and the cumulative count reported
after the last batch equals `|S|`. -/
theorem staging_batches (ids : List String) (h : ids ≠ []) :
    ((insertSteps ids).map Prod.fst).flatten = ids ∧
    (insertSteps ids).length = (ids.length + chunk_size - 1) / chunk_size ∧
    (∀ st ∈ insertSteps ids, st.1.length ≤ chunk_size) ∧
    (insertSteps ids).getLast?.map Prod.snd = some ids.length := by
  obtain ⟨hj, hl, hb, hlast⟩ := insertStepsAux_spec ids ids.length 0 (by omega)
  have hpos : 0 < ids.length := List.length_pos.mpr h
  exact ⟨by simpa [insertSteps] using hj, by simpa [insertSteps] using hl,
    by simpa [insertSteps] using hb, by simpa [insertSteps] using hlast hpos⟩

/-- C5 witness: a three-identifier staging run has one batch, containing
all three identifiers, and reports the cumulative count 3. -/
theorem staging_batches_witness :
    ((insertSteps ["a", "b", "c"]).map Prod.fst).flatten = ["a", "b", "c"] ∧
    (insertSteps ["a", "b", "c"]).length =
      ((["a", "b", "c"] : List String).length + chunk_size - 1) / chunk_size ∧
    (∀ st ∈ insertSteps ["a", "b", "c"], st.1.length ≤ chunk_size) ∧
    (insertSteps ["a", "b", "c"]).getLast?.map Prod.snd =
      some (["a", "b", "c"] : List String).length :=
  staging_batches ["a", "b", "c"] (by decide)

/-! ## C7 — total_products -/

/-- The four canonical band codes. -/
def canonicalCodes : List String := ["0", "5", "20", "other"]

/-- On the canonical band codes, a flattened column name contains the
substring `"item_quantity_count_"` exactly when its metric is the item
quantity count. -/
theorem containsSub_colName (m : Metric) (b : String) (hb : b ∈ canonicalCodes) :
    containsSub (colName m b) "item_quantity_count_" = (m == Metric.item_quantity_count) := by
  simp only [canonicalCodes, List.mem_cons, List.not_mem_nil, or_false] at hb
  rcases hb with rfl | rfl | rfl | rfl <;> cases m <;> decide

/-- A band that occurs in no row of the items table aggregates to the
empty sum. -/
theorem pivotCell_of_not_band (its : List ItemRow) (o : String) (m : Metric) (b : String)
    (hb : b ∉ pivotBands its) : pivotCell its o m b = 0 := by
  have hnil : its.filter (fun r => r.gp_order_id == o && r.vat_band == b) = [] := by
    rw [List.filter_eq_nil_iff]
    intro r hr hP
    apply hb
    simp only [Bool.and_eq_true, beq_iff_eq] at hP
    simp only [pivotBands, List.mem_dedup, List.mem_map]
    exact ⟨r, hr, hP.2⟩
  simp [pivotCell, hnil]

/-- Sums over a duplicate-free index list agree with sums over a
duplicate-free superset on which the summand vanishes outside the
index. -/
theorem sum_map_eq_of_sublist (l L : List String) (f : String → Int)
    (hl : l.Nodup) (hL : L.Nodup) (hsub : ∀ x ∈ l, x ∈ L)
    (hz : ∀ x ∈ L, x ∉ l → f x = 0) :
    (l.map f).sum = (L.map f).sum := by
  rw [← List.sum_toFinset f hl, ← List.sum_toFinset f hL]
  refine Finset.sum_subset ?_ ?_
  · intro x hx
    exact List.mem_toFinset.mpr (hsub x (List.mem_toFinset.mp hx))
  · intro x hx hnx
    exact hz x (List.mem_toFinset.mp hx) fun c => hnx (List.mem_toFinset.mpr c)

/-- C7 counterexample: an input band label outside the recognized set
passes through the canonicalization, creates its own
`item_quantity_count_{band}` column, and is picked up by the
`filter(like="item_quantity_count_")` sum — so `total_products` is 3
while the sum of the four named band columns is 0. -/
theorem total_products_unrecognized_band_cex :
    totalProducts (canonicalizeItems cexStrangeItems) "A" = 3 ∧
    pivotCell (canonicalizeItems cexStrangeItems) "A" Metric.item_quantity_count "0" +
      pivotCell (canonicalizeItems cexStrangeItems) "A" Metric.item_quantity_count "5" +
      pivotCell (canonicalizeItems cexStrangeItems) "A" Metric.item_quantity_count "20" +
      pivotCell (canonicalizeItems cexStrangeItems) "A" Metric.item_quantity_count "other" = 0 := by
  decide

/-- C7 (amended): whenever every canonicalized band of the input lies in
the canonical code set `{"0", "5", "20", "other"}`, the derived
`total_products` of each order equals
`item_quantity_count_0 + item_quantity_count_5 + item_quantity_count_20 +
item_quantity_count_other` for that order (a column of an absent band
counting as 0); an unrecognized pass-through band adds its own
`item_quantity_count_{band}` column to the sum. -/
theorem total_products_eq_band_sum (items : List ItemRow) (o : String)
    (hbands : ∀ r ∈ canonicalizeItems items, r.vat_band ∈ canonicalCodes) :
    totalProducts (canonicalizeItems items) o =
      pivotCell (canonicalizeItems items) o Metric.item_quantity_count "0" +
      pivotCell (canonicalizeItems items) o Metric.item_quantity_count "5" +
      pivotCell (canonicalizeItems items) o Metric.item_quantity_count "20" +
      pivotCell (canonicalizeItems items) o Metric.item_quantity_count "other" := by
  set its := canonicalizeItems items with hits
  have hsub : ∀ b ∈ pivotBands its, b ∈ canonicalCodes := by
    intro b hb
    simp only [pivotBands, List.mem_dedup, List.mem_map] at hb
    obtain ⟨r, hr, rfl⟩ := hb
    exact hbands r hr
  have hfilter_q :
      (pivotBands its).filter
        (fun b => containsSub (colName Metric.item_quantity_count b) "item_quantity_count_") =
        pivotBands its := by
    rw [List.filter_eq_self]
    intro b hb
    rw [containsSub_colName _ b (hsub b hb)]
    rfl
  have hfilter_p : ∀ m : Metric, m ≠ Metric.item_quantity_count →
      (pivotBands its).filter
        (fun b => containsSub (colName m b) "item_quantity_count_") = [] := by
    intro m hm
    rw [List.filter_eq_nil_iff]
    intro b hb
    rw [containsSub_colName m b (hsub b hb)]
    simpa using hm
  have htp : totalProducts its o =
      ((pivotBands its).map
        (fun b => pivotCell its o Metric.item_quantity_count b)).sum := by
    simp only [totalProducts, pivotColumns, metrics, List.flatMap_cons, List.flatMap_nil,
      List.append_nil, List.filter_append, List.filter_map, List.map_append, List.sum_append]
    have e1 := hfilter_q
    have e2 := hfilter_p Metric.total_price_inc_vat (by decide)
    have e3 := hfilter_p Metric.total_price_exc_vat (by decide)
    simp only [Function.comp_def] at *
    rw [e1, e2, e3]
    simp [List.map_map, Function.comp_def, pivotCell]
  rw [htp]
  have hsum := sum_map_eq_of_sublist (pivotBands its) canonicalCodes
    (fun b => pivotCell its o Metric.item_quantity_count b)
    (List.nodup_dedup _) (by decide) hsub
    (fun b _ hbnot => pivotCell_of_not_band its o Metric.item_quantity_count b hbnot)
  rw [hsum]
  simp only [canonicalCodes, List.map_cons, List.map_nil, List.sum_cons, List.sum_nil]
  omega

/-- C7 witness: with a recognized 5%-band row of quantity 3,
`total_products` of order `A` is the four-band sum `0 + 3 + 0 + 0`. -/
theorem total_products_eq_band_sum_witness :
    totalProducts (canonicalizeItems exItems) "A" =
      pivotCell (canonicalizeItems exItems) "A" Metric.item_quantity_count "0" +
      pivotCell (canonicalizeItems exItems) "A" Metric.item_quantity_count "5" +
      pivotCell (canonicalizeItems exItems) "A" Metric.item_quantity_count "20" +
      pivotCell (canonicalizeItems exItems) "A" Metric.item_quantity_count "other" :=
  total_products_eq_band_sum exItems "A" (by decide)

/-! ## C2 and C10 — provider partitioning -/

/-- pandas `!=` is the pointwise negation of `==`, including on missing
values (NaN `==` x is False, NaN `!=` x is True). -/
theorem seriesNe_eq_not (s : Option String) (t : String) :
    seriesNe s t = !(seriesEq s t) := by
  cases s <;> rfl

/-- A value failing an `isin` test fails the equality test against each
member of the tested list. -/
theorem seriesIsin_false_eq (s : Option String) {ts : List String} (t : String)
    (hmem : t ∈ ts) (h : seriesIsin s ts = false) : seriesEq s t = false := by
  cases s with
  | none => rfl
  | some v =>
    simp only [seriesIsin] at h
    have hv : v ∉ ts := by simpa using h
    simp only [seriesEq, beq_eq_false_iff_ne]
    exact fun hvt => hv (hvt ▸ hmem)

/-- `isin` against a sublist of a failing list also fails. -/
theorem seriesIsin_false_sub (s : Option String) {ts ts' : List String}
    (hsub : ∀ x ∈ ts', x ∈ ts) (h : seriesIsin s ts = false) :
    seriesIsin s ts' = false := by
  cases s with
  | none => rfl
  | some v =>
    simp only [seriesIsin] at h ⊢
    have hv : v ∉ ts := by simpa using h
    simpa using fun c => hv (hsub v c)

/-- The number of provider subsets containing a row, written as a sum of
indicator bits of the six predicates. -/
theorem matchCount_eq_bits (r : OrderRow) :
    matchCount r =
      (if isBraintree r then 1 else 0) + (if isPaypal r then 1 else 0) +
      (if isUber r then 1 else 0) + (if isDeliveroo r then 1 else 0) +
      (if isJustEat r then 1 else 0) + (if isAmazon r then 1 else 0) := by
  simp only [matchCount, providerPredicates, List.filter_cons, List.filter_nil]
  cases isBraintree r <;> cases isPaypal r <;> cases isUber r <;> cases isDeliveroo r <;>
    cases isJustEat r <;> cases isAmazon r <;> simp

/-- C2 counterexample: a Final Row with `vendor_group = "dtc"`, a
non-PayPal `payment_system` and `order_vendor = "uber"` satisfies both
the Braintree predicate and the Uber predicate, so it is written to two
partitions' output tables. -/
theorem provider_overlap_cex :
    isBraintree cexClashRow = true ∧ isUber cexClashRow = true ∧
    matchCount cexClashRow = 2 := by
  decide

/-- C2 (amended): the six provider predicates are pairwise disjoint on
every row that does not combine a (case-insensitive) `vendor_group` of
`"dtc"` with an `order_vendor` in the marketplace set
`{"uber", "deliveroo", "just eat", "justeat", "amazon uk"}`; a row with
that combination lands in a `dtc` partition and a marketplace partition
simultaneously. -/
theorem providers_pairwise_disjoint (r : OrderRow)
    (h : dtcMarketplaceClash r = false) : matchCount r ≤ 1 := by
  rw [matchCount_eq_bits]
  by_cases hvg : seriesEq (lowerOpt r.vendor_group) "dtc" = true
  · have hm : seriesIsin (lowerOpt r.order_vendor)
        ["uber", "deliveroo", "just eat", "justeat", "amazon uk"] = false := by
      simpa [dtcMarketplaceClash, hvg] using h
    have hU : isUber r = false := by
      unfold isUber
      exact seriesIsin_false_eq _ "uber" (by decide) hm
    have hD : isDeliveroo r = false := by
      unfold isDeliveroo
      exact seriesIsin_false_eq _ "deliveroo" (by decide) hm
    have hA : isAmazon r = false := by
      unfold isAmazon
      exact seriesIsin_false_eq _ "amazon uk" (by decide) hm
    have hJ : isJustEat r = false := by
      unfold isJustEat
      exact seriesIsin_false_sub _ (by decide) hm
    have hBP : ¬ (isBraintree r = true ∧ isPaypal r = true) := by
      rintro ⟨hb, hp⟩
      simp only [isBraintree, Bool.and_eq_true] at hb
      simp only [isPaypal, Bool.and_eq_true] at hp
      rw [seriesNe_eq_not, hp.2] at hb
      simp at hb
    rw [hU, hD, hJ, hA]
    cases hb : isBraintree r <;> cases hp : isPaypal r
    · simp
    · simp
    · simp
    · exact absurd ⟨hb, hp⟩ hBP
  · have hvg' : seriesEq (lowerOpt r.vendor_group) "dtc" = false :=
      Bool.not_eq_true _ ▸ Bool.of_not_eq_true hvg
    have hB : isBraintree r = false := by simp [isBraintree, hvg']
    have hP : isPaypal r = false := by simp [isPaypal, hvg']
    rw [hB, hP]
    rcases ho : lowerOpt r.order_vendor with _ | v
    · simp [isUber, isDeliveroo, isJustEat, isAmazon, seriesEq, seriesIsin, ho]
    · have hU : isUber r = (v == "uber") := by simp [isUber, seriesEq, ho]
      have hD : isDeliveroo r = (v == "deliveroo") := by simp [isDeliveroo, seriesEq, ho]
      have hJ : isJustEat r = (["just eat", "justeat"].contains v) := by
        simp [isJustEat, seriesIsin, ho]
      have hA : isAmazon r = (v == "amazon uk") := by simp [isAmazon, seriesEq, ho]
      rw [hU, hD, hJ, hA]
      by_cases h1 : v = "uber"
      · subst h1
        decide
      by_cases h2 : v = "deliveroo"
      · subst h2
        decide
      by_cases h3 : v = "just eat"
      · subst h3
        decide
      by_cases h4 : v = "justeat"
      · subst h4
        decide
      by_cases h5 : v = "amazon uk"
      · subst h5
        decide
      have e1 : (v == "uber") = false := beq_eq_false_iff_ne.mpr h1
      have e2 : (v == "deliveroo") = false := beq_eq_false_iff_ne.mpr h2
      have e5 : (v == "amazon uk") = false := beq_eq_false_iff_ne.mpr h5
      have e34 : (["just eat", "justeat"].contains v) = false := by
        simp [h3, h4]
      rw [e1, e2, e34, e5]
      simp

/-- C2 witness: a `dtc` row whose `order_vendor` is outside the
marketplace set lands in at most one partition. -/
theorem providers_pairwise_disjoint_witness :
    matchCount ⟨some "Y", some 1, some "dtc", some "card", some "web"⟩ ≤ 1 :=
  providers_pairwise_disjoint ⟨some "Y", some 1, some "dtc", some "card", some "web"⟩
    (by decide)

/-- C10 counterexample: a Final Row whose `payment_system` and
`order_vendor` are both missing still matches the Braintree predicate,
because the `!=` comparison against `"paypal"` evaluates to True on a
missing value — the claim that any missing field excludes the row from
all partitions is false. -/
theorem missing_field_matches_braintree_cex :
    cexMissingRow.payment_system = none ∧ cexMissingRow.order_vendor = none ∧
    isBraintree cexMissingRow = true ∧ matchCount cexMissingRow = 1 := by
  decide

/-- C10 (amended): a Final Row with missing `vendor_group` and missing
`order_vendor` matches none of the six predicates (its `payment_system`
may be anything): the equality comparisons are False on missing values,
but the Braintree inequality on `payment_system` is True on a missing
value, so a missing `payment_system` alone does not exclude a row. -/
theorem missing_vendor_fields_match_none (r : OrderRow)
    (hvg : r.vendor_group = none) (hov : r.order_vendor = none) :
    matchCount r = 0 := by
  rw [matchCount_eq_bits]
  simp [isBraintree, isPaypal, isUber, isDeliveroo, isJustEat, isAmazon,
    seriesEq, seriesIsin, lowerOpt, hvg, hov]

/-- C10 witness: a row missing both classification vendor fields is
excluded from every partition. -/
theorem missing_vendor_fields_match_none_witness :
    matchCount ⟨some "Z", some 1, none, some "card", none⟩ = 0 :=
  missing_vendor_fields_match_none ⟨some "Z", some 1, none, some "card", none⟩ rfl rfl

/-! ## C8 — connection release -/

/-- C8 counterexample: a run whose item-staging stage fails (empty key
set) ends with the connection still open — `main` has no `try`/`finally`
around the queries, so `conn.close()` at line 217 is skipped on the
failure path. -/
theorem conn_not_closed_on_failure_cex :
    (mainRun cexEngine).result = .error .EmptyKeySetError ∧
    (mainRun cexEngine).connClosed = false := by
  exact ⟨rfl, rfl⟩

/-- C8 (amended): the connection is closed exactly on the success path:
`connClosed` holds iff the run result is a normal return; every failing
run leaves the connection open. -/
theorem conn_closed_iff_success (eng : Engine) :
    (mainRun eng).connClosed = exceptIsOk (mainRun eng).result := by
  unfold mainRun
  rcases eng.runOrderQuery with e | dfo
  · rfl
  · rcases h : run_item_level_query eng dfo with e | dfi <;> simp [h, exceptIsOk]

/-! ## C1 — merge and duplicate suppression -/

/-- C1 counterexample: order `A` spans transaction indices 1..2 but has
no item rows, so the left merge leaves its index-1 row unmatched and the
item-derived columns hold the missing marker there — no row of order `A`
carries non-missing item-derived columns, against the claim that exactly
the index-1 row does. -/
theorem merge_dedup_no_items_cex :
    cexFinalRowA1 ∈ (transform_item_data cexOrders cexItemsB).1 ∧
    cexFinalRowA1.order.gp_order_id = some "A" ∧
    cexFinalRowA1.order.braintree_tx_index = some 1 ∧
    cexFinalRowA1.total_products = none ∧
    cexFinalRowA1.itemCell Metric.item_quantity_count "5" = none := by
  refine ⟨.head _, rfl, rfl, ?_, ?_⟩
  · decide
  · decide

/-- C1 (amended): after the merge step, every row whose transaction index
is present and ≥ 2 holds the missing marker in every item-derived column
(each pivot metric/band column and `total_products`); the index-1 row of
an order that has at least one item row holds a non-missing value in
every such column. An order with no item rows has the missing marker on
all its rows, including index 1. -/
theorem merge_dedup (df_orders : List OrderRow) (df_items : List ItemRow)
    (fr : FinalRow) (hfr : fr ∈ (transform_item_data df_orders df_items).1)
    (m : Metric) (b : String) :
    (∀ k : Int, fr.order.braintree_tx_index = some k → 2 ≤ k →
      fr.itemCell m b = none ∧ fr.total_products = none) ∧
    (∀ o : String, fr.order.braintree_tx_index = some 1 →
      fr.order.gp_order_id = some o →
      o ∈ pivotIndex (canonicalizeItems df_items) →
      (∃ x, fr.itemCell m b = some x) ∧ ∃ y, fr.total_products = some y) := by
  simp only [transform_item_data, List.mem_map] at hfr
  obtain ⟨row, _, rfl⟩ := hfr
  constructor
  · intro k hk h2
    simp only [buildFinalRow] at hk
    have hmask : dedupMask row = true := by
      simp [dedupMask, hk, h2]
    simp [buildFinalRow, hmask]
  · intro o h1 ho hoidx
    simp only [buildFinalRow] at h1 ho
    have hmask : dedupMask row = false := by
      simp [dedupMask, h1]
    simp [buildFinalRow, hmask, mergeItemCell, mergeTotalProducts, ho, hoidx]

/-- C1 witness: in the end-to-end scenario (order `A` with transaction
indices 1 and 2 and one 5%-band item row), the index-2 final row holds
the missing marker in the 5%-band quantity column and in
`total_products`, while the index-1 final row holds values in both. -/
theorem merge_dedup_witness :
    ((buildFinalRow (canonicalizeItems exItems)
        ⟨some "A", some 2, some "dtc", some "braintree", some "web"⟩).itemCell
          Metric.item_quantity_count "5" = none ∧
      (buildFinalRow (canonicalizeItems exItems)
        ⟨some "A", some 2, some "dtc", some "braintree", some "web"⟩).total_products = none) ∧
    ((∃ x, (buildFinalRow (canonicalizeItems exItems)
        ⟨some "A", some 1, some "dtc", some "braintree", some "web"⟩).itemCell
          Metric.item_quantity_count "5" = some x) ∧
      ∃ y, (buildFinalRow (canonicalizeItems exItems)
        ⟨some "A", some 1, some "dtc", some "braintree", some "web"⟩).total_products = some y) := by
  constructor
  · exact (merge_dedup exOrders exItems _ (List.Mem.tail _ (.head _))
      Metric.item_quantity_count "5").1 2 rfl (by norm_num)
  · exact (merge_dedup exOrders exItems _ (.head _)
      Metric.item_quantity_count "5").2 "A" rfl rfl (by decide)

end CombineSql
